import Mathlib

/-!
Shallow embedding of the voice-agent session state machine
(`src/backend/src/agents/...`) and the voice transport registry
(`src/backend/src/api/voice_websocket.py`), with theorems checking the
natural-language specification against the code.

Conventions of the embedding:
* Python `None`-able fields become `Option`; Python truthiness of an
  optional string (`if s:`) is `strTruthy` (false for `None` and `""`).
* The LLM "decision oracle" calls and the external banking operations are
  injected as parameters; a call that raises is an `Except.error` carrying
  the exception message, matching the `except Exception as e` handlers.
* A Python function that can fall off the end of its body (implicitly
  returning `None`) returns `Option AgentState`, with `none` exactly on
  the fall-through paths.
-/

namespace VoiceAgent

/-- Message role: `HumanMessage` has `msg.type == "human"`, `AIMessage` is the
agent reply type appended by the nodes. -/
inductive Role
  | human
  | ai
deriving DecidableEq, Repr

/-- One conversation message (langchain `BaseMessage` restricted to the
fields the nodes read: the type tag and the content). -/
structure Msg where
  role : Role
  content : String
deriving DecidableEq, Repr

/-- Build an agent (AI) message. -/
def aiMsg (s : String) : Msg := ⟨Role.ai, s⟩

/-- Build a user (human) message. -/
def humanMsg (s : String) : Msg := ⟨Role.human, s⟩

/-- The closed intent label set of `IntentClassification` (intent_router.py). -/
inductive Intent
  | card_atm
  | account_servicing
  | account_opening
  | digital_support
  | transfer_payment
  | account_closure
  | general_inquiry
deriving DecidableEq, Repr

/-- The string label of an intent, as stored in the Python state dict. -/
def Intent.label : Intent → String
  | .card_atm => "card_atm"
  | .account_servicing => "account_servicing"
  | .account_opening => "account_opening"
  | .digital_support => "digital_support"
  | .transfer_payment => "transfer_payment"
  | .account_closure => "account_closure"
  | .general_inquiry => "general_inquiry"

/-- Python truthiness of an optional string: `None` and `""` are falsy. -/
def strTruthy : Option String → Bool
  | none => false
  | some s => !s.isEmpty

/-- The `AgentState` TypedDict (src/backend/src/agents/state.py), restricted
to the fields the verified nodes read or write.  Confidence scores and
balances are embedded as rationals. -/
structure AgentState where
  messages : List Msg
  customer_id : Option String
  authenticated : Bool
  authentication_method : Option String
  verification_attempts : Nat
  session_id : String
  intent : Option Intent
  intent_confidence : Option ℚ
  flow_stage : Option String
  needs_user_input : Bool
  resume_node : Option String
  escalation_requested : Bool
  escalation_reason : Option String
  account_balance : Option ℚ
deriving DecidableEq, Repr

/-! ## Intent router (src/backend/src/agents/nodes/intent_router.py) -/

/-- Structured output schema of the intent-classification oracle call. -/
structure IntentClassification where
  intent : Intent
  confidence : ℚ
  reasoning : String
deriving DecidableEq, Repr

/-- `route_intent_node`: entry node.  The oracle call (`llm.invoke`) is the
`oracle` parameter; `Except.error e` is the raising call caught by the
`except` clause. -/
def route_intent_node (state : AgentState)
    (oracle : Except String IntentClassification) : AgentState :=
  if strTruthy state.resume_node then
    state
  else
    let user_messages := state.messages.filter (fun m => m.role == Role.human)
    if user_messages.isEmpty then
      { state with
        intent := some Intent.general_inquiry
        intent_confidence := some (1/2 : ℚ) }
    else
      match oracle with
      | .ok r =>
          { state with
            intent := some r.intent
            intent_confidence := some r.confidence }
      | .error _ =>
          { state with
            intent := some Intent.general_inquiry
            intent_confidence := some (3/10 : ℚ) }

/-- The `intent_to_node` routing dict of `route_to_flow`, with its
`.get(intent, "general_inquiry_node")` default. -/
def intent_to_node : Option Intent → String
  | some .card_atm => "security_check"
  | some .account_servicing => "security_check"
  | some .transfer_payment => "security_check"
  | some .account_closure => "security_check"
  | some .account_opening => "opening_agent"
  | some .digital_support => "digital_agent"
  | some .general_inquiry => "general_inquiry_node"
  | none => "general_inquiry_node"

/-- `route_to_flow`: conditional edge out of the intent router.  A missing
`intent_confidence` reads as `0.0` (`state.get("intent_confidence", 0.0)`). -/
def route_to_flow (state : AgentState) : String :=
  if strTruthy state.resume_node then
    (state.resume_node).getD ""
  else
    let confidence := (state.intent_confidence).getD 0
    if confidence < (1/2 : ℚ) then
      "general_inquiry_node"
    else
      intent_to_node state.intent

/-- The fresh per-session state initialised by `handle_voice_websocket`
(voice_websocket.py), restricted to the embedded fields. -/
def initState : AgentState :=
  { messages := []
    customer_id := none
    authenticated := false
    authentication_method := none
    verification_attempts := 0
    session_id := "session-1"
    intent := none
    intent_confidence := none
    flow_stage := none
    needs_user_input := false
    resume_node := none
    escalation_requested := false
    escalation_reason := none
    account_balance := none }

/-! ## Security check (src/backend/src/agents/nodes/security_check.py) -/

/-- Apostrophe character, written by code point to keep source text plain. -/
def apos : String := String.singleton (Char.ofNat 39)

/-- Structured output of the identity-extraction oracle call. -/
structure IdentityExtraction where
  customer_id : Option String
  pin : Option String
  has_identity_info : Bool
deriving DecidableEq, Repr

/-- Reply sent when the attempt limit forces escalation. -/
def escalationAfterAttemptsMsg : String :=
  "I" ++ apos ++ "m sorry, but for your security, I need to transfer you " ++
  "to a representative after multiple failed verification attempts. " ++
  "Please hold while I connect you."

/-- Prompt asking for the customer id. -/
def askCustomerIdMsg : String :=
  "For security purposes, I" ++ apos ++ "ll need to verify your identity. " ++
  "Could you please provide your Customer ID? " ++
  "It should be in the format CUST followed by numbers, like CUST00001."

/-- Prompt asking for the PIN. -/
def askPinMsg : String :=
  "Thank you. Now, could you please provide your 4-digit PIN " ++
  "to verify your identity?"

/-- Reply sent on successful authentication. -/
def authSuccessMsg : String :=
  "Thank you for verifying your identity. How can I assist you today?"

/-- Reprompt sent after a failed PIN check with attempts remaining. -/
def wrongPinRepromptMsg (remaining : Nat) : String :=
  "I" ++ apos ++ "m sorry, but that PIN doesn" ++ apos ++ "t match our records. " ++
  "You have " ++ toString remaining ++ " attempt(s) remaining. " ++
  "Please try again."

/-- Reply sent after the final failed PIN attempt. -/
def lastFailMsg : String :=
  "I" ++ apos ++ "m sorry, but I need to transfer you to a representative " ++
  "for security reasons. Please hold."

/-- Fallback prompt asking for both credentials. -/
def askBothMsg : String := "Could you please provide your Customer ID and PIN?"

/-- Reply sent when the identity extraction or verification call raises. -/
def securityErrorMsg : String :=
  "I apologize, but I" ++ apos ++ "m having trouble verifying your identity. " ++
  "Could you please provide your Customer ID and PIN?"

/-- `security_check_node`: PIN authentication with a 3-attempt budget.  The
identity-extraction oracle call is `extract`; the database PIN check
(`verify_pin`) is `verify`; either raising is an `Except.error` handled by
the `except` clause. -/
def security_check_node (state : AgentState)
    (extract : Except String IdentityExtraction)
    (verify : String → String → Except String Bool) : AgentState :=
  if state.authenticated then
    state
  else if 3 ≤ state.verification_attempts then
    { state with
      escalation_requested := true
      escalation_reason := some "Failed authentication after 3 attempts"
      messages := state.messages ++ [aiMsg escalationAfterAttemptsMsg] }
  else
    match extract with
    | .error _ =>
        { state with
          needs_user_input := true
          resume_node := some "security_check"
          messages := state.messages ++ [aiMsg securityErrorMsg] }
    | .ok ext =>
        if !ext.has_identity_info then
          let prompt :=
            if !(strTruthy state.customer_id) then askCustomerIdMsg else askPinMsg
          { state with
            needs_user_input := true
            resume_node := some "security_check"
            messages := state.messages ++ [aiMsg prompt] }
        else
          let state1 :=
            if strTruthy ext.customer_id then
              { state with customer_id := ext.customer_id }
            else state
          if strTruthy ext.customer_id && strTruthy ext.pin then
            match verify ((ext.customer_id).getD "") ((ext.pin).getD "") with
            | .error _ =>
                { state1 with
                  needs_user_input := true
                  resume_node := some "security_check"
                  messages := state1.messages ++ [aiMsg securityErrorMsg] }
            | .ok true =>
                { state1 with
                  authenticated := true
                  authentication_method := some "pin"
                  customer_id := ext.customer_id
                  needs_user_input := false
                  resume_node := none
                  messages := state1.messages ++ [aiMsg authSuccessMsg] }
            | .ok false =>
                let new_attempts := state.verification_attempts + 1
                let remaining_attempts := 3 - new_attempts
                let message :=
                  if 0 < remaining_attempts then
                    wrongPinRepromptMsg remaining_attempts
                  else lastFailMsg
                { state1 with
                  verification_attempts := new_attempts
                  needs_user_input := true
                  resume_node := some "security_check"
                  messages := state1.messages ++ [aiMsg message] }
          else if strTruthy ext.customer_id && !(strTruthy ext.pin) then
            { state1 with
              customer_id := ext.customer_id
              needs_user_input := true
              resume_node := some "security_check"
              messages := state1.messages ++ [aiMsg askPinMsg] }
          else
            { state1 with
              needs_user_input := true
              resume_node := some "security_check"
              messages := state1.messages ++ [aiMsg askBothMsg] }

/-- `check_auth_status`: conditional edge out of the security check. -/
def check_auth_status (state : AgentState) : String :=
  if state.escalation_requested then "escalation"
  else if state.needs_user_input then "__end__"
  else if !state.authenticated then "security_check"
  else
    match state.intent with
    | some .card_atm => "card_atm_agent"
    | some .account_servicing => "account_servicing_agent"
    | some .transfer_payment => "transfer_agent"
    | some .account_closure => "closure_agent"
    | _ => "escalation"

/-- Helper: every run of the security check either leaves the counter
unchanged or, only when it started below 3, increments it by exactly 1. -/
theorem security_check_attempts_cases (s : AgentState)
    (extract : Except String IdentityExtraction)
    (verify : String → String → Except String Bool) :
    (security_check_node s extract verify).verification_attempts =
        s.verification_attempts ∨
      ((security_check_node s extract verify).verification_attempts =
          s.verification_attempts + 1 ∧ s.verification_attempts < 3) := by
  unfold security_check_node
  repeat' split
  all_goals simp_all

/-! ## Theorems: classification and routing (C3, C4, C7) -/

/-- C3: with `resume_node` unset, an intent classified with confidence ≥ 0.5
is routed to exactly its documented destination (`card_atm`,
`account_servicing`, `transfer_payment`, `account_closure` to the
authentication node `security_check`; `account_opening` to `opening_agent`;
`digital_support` to `digital_agent`; `general_inquiry` to
`general_inquiry_node`); with confidence < 0.5 the route is always
`general_inquiry_node`, whatever the intent label. -/
theorem routing_table_determinism (s : AgentState) (c : ℚ)
    (hres : strTruthy s.resume_node = false)
    (hconf : s.intent_confidence = some c) :
    ((1/2 : ℚ) ≤ c →
      (s.intent = some Intent.card_atm → route_to_flow s = "security_check") ∧
      (s.intent = some Intent.account_servicing → route_to_flow s = "security_check") ∧
      (s.intent = some Intent.transfer_payment → route_to_flow s = "security_check") ∧
      (s.intent = some Intent.account_closure → route_to_flow s = "security_check") ∧
      (s.intent = some Intent.account_opening → route_to_flow s = "opening_agent") ∧
      (s.intent = some Intent.digital_support → route_to_flow s = "digital_agent") ∧
      (s.intent = some Intent.general_inquiry → route_to_flow s = "general_inquiry_node")) ∧
    (c < (1/2 : ℚ) → route_to_flow s = "general_inquiry_node") := by
  have hroute : route_to_flow s =
      if c < (1/2 : ℚ) then "general_inquiry_node" else intent_to_node s.intent := by
    simp [route_to_flow, hres, hconf]
  constructor
  · intro hc
    have hnot : ¬ c < (1/2 : ℚ) := not_lt.mpr hc
    rw [hroute, if_neg hnot]
    refine ⟨?_, ?_, ?_, ?_, ?_, ?_, ?_⟩ <;> (intro hi; rw [hi]; rfl)
  · intro hc
    rw [hroute, if_pos hc]

/-- Witness for `routing_table_determinism` at a concrete state: intent
`card_atm` with confidence 0.9 routes to `security_check`. -/
theorem routing_table_determinism_witness :
    route_to_flow { initState with
      intent := some Intent.card_atm, intent_confidence := some (9/10 : ℚ) } =
      "security_check" :=
  ((routing_table_determinism
      { initState with
        intent := some Intent.card_atm, intent_confidence := some (9/10 : ℚ) }
      (9/10 : ℚ) (by decide) rfl).1 (by norm_num)).1 rfl

/-- C4: with `resume_node` set (to a non-empty node name), the
classification node returns the state unchanged — so the prior intent and
confidence are preserved — and the routing edge transfers control directly
to the named node. -/
theorem resume_skips_classification (s : AgentState) (r : String)
    (hres : s.resume_node = some r) (hne : r ≠ "") :
    (∀ oracle, route_intent_node s oracle = s) ∧ route_to_flow s = r := by
  have hemp : r.isEmpty = false := by
    by_contra h
    have h' : r.isEmpty = true := by simpa using h
    exact hne ((String.isEmpty_iff r).mp h')
  have ht : strTruthy s.resume_node = true := by
    rw [hres]; simp [strTruthy, hemp]
  refine ⟨fun oracle => ?_, ?_⟩
  · simp [route_intent_node, ht]
  · have ht2 : strTruthy (some r) = true := by rw [← hres]; exact ht
    simp [route_to_flow, hres, ht2]

/-- Witness for `resume_skips_classification`: a suspended authentication
session resumes directly at `security_check`. -/
theorem resume_skips_classification_witness :
    (∀ oracle,
        route_intent_node { initState with resume_node := some "security_check" } oracle =
          { initState with resume_node := some "security_check" }) ∧
      route_to_flow { initState with resume_node := some "security_check" } =
        "security_check" :=
  resume_skips_classification
    { initState with resume_node := some "security_check" }
    "security_check" rfl (by decide)

/-- C7: in classification (resume not set), a history with no user turn
yields intent `general_inquiry` at confidence 0.5 for every oracle outcome,
and a raising oracle call yields intent `general_inquiry` at confidence 0.3;
both paths return a state rather than propagating the error. -/
theorem classification_fallbacks (s : AgentState)
    (hres : strTruthy s.resume_node = false) :
    ((∀ m ∈ s.messages, m.role ≠ Role.human) →
      ∀ oracle,
        (route_intent_node s oracle).intent = some Intent.general_inquiry ∧
        (route_intent_node s oracle).intent_confidence = some (1/2 : ℚ)) ∧
    (∀ e, (s.messages.filter (fun m => m.role == Role.human)) ≠ [] →
      (route_intent_node s (Except.error e)).intent = some Intent.general_inquiry ∧
      (route_intent_node s (Except.error e)).intent_confidence = some (3/10 : ℚ)) := by
  constructor
  · intro hnone oracle
    have hfilter : s.messages.filter (fun m => m.role == Role.human) = [] := by
      rw [List.filter_eq_nil_iff]
      intro m hm
      simpa using hnone m hm
    simp [route_intent_node, hres, hfilter]
  · intro e hne
    simp [route_intent_node, hres, List.isEmpty_iff, hne]

/-- Witness for `classification_fallbacks`: the empty history defaults to
`general_inquiry` at 0.5; a one-user-turn history with a raising oracle
defaults to `general_inquiry` at 0.3. -/
theorem classification_fallbacks_witness :
    ((route_intent_node initState (Except.error "boom")).intent =
        some Intent.general_inquiry ∧
      (route_intent_node initState (Except.error "boom")).intent_confidence =
        some (1/2 : ℚ)) ∧
    ((route_intent_node { initState with messages := [humanMsg "hi"] }
          (Except.error "boom")).intent = some Intent.general_inquiry ∧
      (route_intent_node { initState with messages := [humanMsg "hi"] }
          (Except.error "boom")).intent_confidence = some (3/10 : ℚ)) := by
  constructor
  · exact (classification_fallbacks initState rfl).1 (by intro m hm; cases hm)
      (Except.error "boom")
  · exact (classification_fallbacks { initState with messages := [humanMsg "hi"] }
      rfl).2 "boom" (by decide)

/-! ## Theorems: authentication attempt budget (C1) -/

/-- C1: each failed PIN verification increments `verification_attempts` by
exactly 1; the counter (a natural number, hence never below 0) never exceeds
3 when it starts at most 3; and an unauthenticated entry with the attempt
budget exhausted escalates with reason
"Failed authentication after 3 attempts", which the auth edge then routes to
the escalation node. -/
theorem failed_pin_attempt_counter (s : AgentState)
    (extract : Except String IdentityExtraction)
    (verify : String → String → Except String Bool) :
    (∀ ext cid pin,
      s.authenticated = false →
      s.verification_attempts < 3 →
      extract = Except.ok ext →
      ext.has_identity_info = true →
      ext.customer_id = some cid → cid.isEmpty = false →
      ext.pin = some pin → pin.isEmpty = false →
      verify cid pin = Except.ok false →
      (security_check_node s extract verify).verification_attempts =
        s.verification_attempts + 1) ∧
    (s.verification_attempts ≤ 3 →
      (security_check_node s extract verify).verification_attempts ≤ 3) ∧
    (s.authenticated = false → 3 ≤ s.verification_attempts →
      (security_check_node s extract verify).escalation_requested = true ∧
      (security_check_node s extract verify).escalation_reason =
        some "Failed authentication after 3 attempts" ∧
      check_auth_status (security_check_node s extract verify) = "escalation") := by
  refine ⟨?_, ?_, ?_⟩
  · intro ext cid pin hauth hlt hx hinfo hcid hcne hpin hpne hverify
    subst hx
    simp [security_check_node, hauth, not_le.mpr hlt, hinfo, hcid, hpin,
      strTruthy, hcne, hpne, hverify]
  · intro hle
    rcases security_check_attempts_cases s extract verify with h | ⟨h, hlt⟩ <;> omega
  · intro hauth h3
    have hnode : security_check_node s extract verify =
        { s with
          escalation_requested := true
          escalation_reason := some "Failed authentication after 3 attempts"
          messages := s.messages ++ [aiMsg escalationAfterAttemptsMsg] } := by
      simp [security_check_node, hauth, h3]
    rw [hnode]
    exact ⟨rfl, rfl, by simp [check_auth_status]⟩

/-- Witness for `failed_pin_attempt_counter`: a wrong PIN moves the counter
from 1 to 2, and an entry with the budget exhausted escalates. -/
theorem failed_pin_attempt_counter_witness :
    (security_check_node { initState with verification_attempts := 1 }
        (Except.ok ⟨some "CUST00001", some "9999", true⟩)
        (fun _ _ => Except.ok false)).verification_attempts = 2 ∧
    (security_check_node { initState with verification_attempts := 3 }
        (Except.ok ⟨some "CUST00001", some "9999", true⟩)
        (fun _ _ => Except.ok false)).escalation_requested = true := by
  constructor
  · exact (failed_pin_attempt_counter { initState with verification_attempts := 1 }
      (Except.ok ⟨some "CUST00001", some "9999", true⟩) (fun _ _ => Except.ok false)).1
      ⟨some "CUST00001", some "9999", true⟩ "CUST00001" "9999"
      rfl (by simp [initState]) rfl rfl rfl rfl rfl rfl rfl
  · exact ((failed_pin_attempt_counter { initState with verification_attempts := 3 }
      (Except.ok ⟨some "CUST00001", some "9999", true⟩) (fun _ _ => Except.ok false)).2.2
      rfl (by simp [initState])).1

/-! ## Completion checks (card_agent.py, account_agent.py, stub_agents.py,
and the general-inquiry conditional edge in graph.py) -/

/-- `check_card_flow_completion` (card_agent.py). -/
def check_card_flow_completion (state : AgentState) : String :=
  if state.escalation_requested then "escalation"
  else if state.needs_user_input then "__end__"
  else if state.flow_stage = some "card_blocked" ∨ state.flow_stage = some "complete" then
    "complete"
  else "card_atm_agent"

/-- `check_account_flow_completion` (account_agent.py). -/
def check_account_flow_completion (state : AgentState) : String :=
  if state.escalation_requested then "escalation"
  else if state.needs_user_input then "__end__"
  else if state.flow_stage = some "complete" then "complete"
  else "account_servicing_agent"

/-- `check_flow_completion` (stub_agents.py): the shared completion check of
the stub agents; its fall-through returns the intent label suffixed with
`_agent` (with `general_inquiry` as the default for a missing intent). -/
def check_flow_completion (state : AgentState) : String :=
  if state.escalation_requested then "escalation"
  else if state.needs_user_input then "__end__"
  else if state.flow_stage = some "complete" then "complete"
  else (((state.intent).map Intent.label).getD "general_inquiry") ++ "_agent"

/-- The general-inquiry completion check: the anonymous conditional-edge
function wired for `general_inquiry_node` in `create_agent_graph`
(graph.py): complete iff `flow_stage == "complete"`, else loop. -/
def general_inquiry_completion (state : AgentState) : String :=
  if state.flow_stage = some "complete" then "complete"
  else "general_inquiry_node"

/-! ## Theorems: completion-check priority order (C2) -/

/-- C2 counterexample: the general-inquiry completion check — one of the
handler-family completion checks, wired in `create_agent_graph` — returns
the loop target, not escalation, on a state with
`escalation_requested = true`, so not every family completion check gives
escalation priority. -/
theorem general_inquiry_completion_ignores_escalation :
    ({ initState with escalation_requested := true } : AgentState).escalation_requested
        = true ∧
      general_inquiry_completion { initState with escalation_requested := true } =
        "general_inquiry_node" ∧
      general_inquiry_completion { initState with escalation_requested := true } ≠
        "escalation" := by
  refine ⟨rfl, by simp [general_inquiry_completion, initState], ?_⟩
  simp [general_inquiry_completion, initState]

/-- C2 amended: the card, account-servicing and stub completion checks are
pure functions of the snapshot evaluated in the priority order escalation →
suspend (`__end__`) → family-terminal flow stage → continue (the stub check
continues at the intent label suffixed `_agent`); in particular each of
those three returns escalation whenever `escalation_requested` is true.
The general-inquiry completion check instead tests only for the terminal
flow stage and otherwise loops, ignoring both `escalation_requested` and
`needs_user_input`. -/
theorem completion_check_priority_order (s : AgentState) :
    (s.escalation_requested = true →
      check_card_flow_completion s = "escalation" ∧
      check_account_flow_completion s = "escalation" ∧
      check_flow_completion s = "escalation") ∧
    (s.escalation_requested = false → s.needs_user_input = true →
      check_card_flow_completion s = "__end__" ∧
      check_account_flow_completion s = "__end__" ∧
      check_flow_completion s = "__end__") ∧
    (s.escalation_requested = false → s.needs_user_input = false →
      ((s.flow_stage = some "card_blocked" ∨ s.flow_stage = some "complete") →
        check_card_flow_completion s = "complete") ∧
      (s.flow_stage = some "complete" →
        check_account_flow_completion s = "complete" ∧
        check_flow_completion s = "complete") ∧
      (¬(s.flow_stage = some "card_blocked" ∨ s.flow_stage = some "complete") →
        check_card_flow_completion s = "card_atm_agent") ∧
      (s.flow_stage ≠ some "complete" →
        check_account_flow_completion s = "account_servicing_agent" ∧
        check_flow_completion s =
          (((s.intent).map Intent.label).getD "general_inquiry") ++ "_agent")) ∧
    ((s.flow_stage = some "complete" → general_inquiry_completion s = "complete") ∧
      (s.flow_stage ≠ some "complete" →
        general_inquiry_completion s = "general_inquiry_node")) := by
  refine ⟨?_, ?_, ?_, ?_, ?_⟩
  · intro h
    simp [check_card_flow_completion, check_account_flow_completion,
      check_flow_completion, h]
  · intro h hn
    simp [check_card_flow_completion, check_account_flow_completion,
      check_flow_completion, h, hn]
  · intro h hn
    refine ⟨?_, ?_, ?_, ?_⟩
    · intro ht
      simp [check_card_flow_completion, h, hn, ht]
    · intro ht
      simp [check_account_flow_completion, check_flow_completion, h, hn, ht]
    · intro hf
      simp [check_card_flow_completion, h, hn, hf]
    · intro hf
      simp [check_account_flow_completion, check_flow_completion, h, hn, hf]
  · intro ht
    simp [general_inquiry_completion, ht]
  · intro hf
    simp [general_inquiry_completion, hf]

/-- Witness for `completion_check_priority_order` at concrete states, one per
priority level, plus the general-inquiry loop branch. -/
theorem completion_check_priority_order_witness :
    check_card_flow_completion { initState with escalation_requested := true } =
        "escalation" ∧
      check_card_flow_completion { initState with needs_user_input := true } =
        "__end__" ∧
      check_card_flow_completion { initState with flow_stage := some "card_blocked" } =
        "complete" ∧
      check_card_flow_completion initState = "card_atm_agent" ∧
      general_inquiry_completion initState = "general_inquiry_node" := by
  refine ⟨?_, ?_, ?_, ?_, ?_⟩
  · exact ((completion_check_priority_order _).1 rfl).1
  · exact ((completion_check_priority_order _).2.1 rfl rfl).1
  · exact ((completion_check_priority_order _).2.2.1 rfl rfl).1 (Or.inl rfl)
  · exact ((completion_check_priority_order _).2.2.1 rfl rfl).2.2.1
      (by simp [initState])
  · exact (completion_check_priority_order initState).2.2.2.2
      (by simp [initState])

/-! ## Card and ATM agent (src/backend/src/agents/nodes/card_agent.py) -/

/-- Action labels of the card-agent oracle schema. -/
inductive CardActionKind
  | block_card
  | check_status
  | gather_info
  | complete
  | escalate
deriving DecidableEq, Repr

/-- Structured output of the card-agent oracle call (`CardAction`). -/
structure CardAction where
  action : CardActionKind
  card_id : Option String
  reason : Option String
  confirmation_needed : Bool
  response : String
deriving DecidableEq, Repr

/-- Result dict of the `block_card` banking tool as the handler reads it:
`success`, `last_4` (read with default "XXXX"), `reference_id`, `error`. -/
structure BlockCardResult where
  success : Bool
  last_4 : Option String
  reference_id : String
  error : Option String
deriving DecidableEq, Repr

/-- Result dict of the `get_card_details` banking tool as the handler reads
it. -/
structure CardDetailsResult where
  success : Bool
  status : String
  last_4 : String
  blocked_at : String
  blocked_reason : String
deriving DecidableEq, Repr

/-- External banking operations the card handler can invoke; a turn records
the side-effecting calls it performed. -/
inductive BankOp
  | blockCard (card_id : String) (reason : String)
  | getCardDetails (card_id : String)
deriving DecidableEq, Repr

/-- Python f-string rendering of an optional string (`None` prints as
"None"). -/
def pyStr : Option String → String
  | none => "None"
  | some s => s

/-- Generic apology appended by the card-handler catch clause. -/
def cardAgentApologyMsg : String :=
  "I" ++ apos ++ "m having trouble processing your request. " ++
  "Let me connect you with a specialist."

/-- The escalated state built by the card-handler catch clause
(`except Exception as e`). -/
def cardAgentCatch (state : AgentState) (e : String) : AgentState :=
  { state with
    escalation_requested := true
    escalation_reason := some ("Agent error: " ++ e)
    messages := state.messages ++ [aiMsg cardAgentApologyMsg] }

/-- Reply for a successful card block, carrying the reference id. -/
def blockSuccessMsg (r : BlockCardResult) : String :=
  "Your card ending in " ++ (r.last_4).getD "XXXX" ++
  " has been blocked successfully. " ++
  "Reference number: " ++ r.reference_id ++ ". " ++
  "A replacement card will be mailed to your address on file within " ++
  "5-7 business days. " ++
  "Is there anything else I can help you with?"

/-- The reason string passed to the block operation
(`decision.reason or "Customer request"`). -/
def blockReason (d : CardAction) : String :=
  match d.reason with
  | some r => if r.isEmpty then "Customer request" else r
  | none => "Customer request"

/-- Reply for a card-status check that found the card. -/
def cardStatusMsg (info : CardDetailsResult) : String :=
  let base := "Your card ending in " ++ info.last_4 ++
    " is currently " ++ info.status ++ "."
  if info.status = "blocked" then
    base ++ " It was blocked on " ++ info.blocked_at ++
      " due to: " ++ info.blocked_reason ++ "."
  else base

/-- `card_atm_agent_node`: the deep-logic card handler.  The oracle decision
and the two banking operations are injected; the returned list records the
banking operations the turn actually invoked.  The Python body falls off
the end on action `check_status` with no card id, which is the `none`
result. -/
def card_atm_agent_node (state : AgentState)
    (oracle : Except String CardAction)
    (blockOp : String → String → Except String BlockCardResult)
    (detailsOp : String → Except String CardDetailsResult) :
    Option AgentState × List BankOp :=
  match oracle with
  | .error e => (some (cardAgentCatch state e), [])
  | .ok d =>
    match d.action with
    | .block_card =>
      if !d.confirmation_needed then
        if strTruthy d.card_id then
          let cid := (d.card_id).getD ""
          match blockOp cid (blockReason d) with
          | .error e =>
              (some (cardAgentCatch state e), [BankOp.blockCard cid (blockReason d)])
          | .ok r =>
            if r.success then
              (some { state with
                  flow_stage := some "card_blocked"
                  messages := state.messages ++ [aiMsg (blockSuccessMsg r)] },
                [BankOp.blockCard cid (blockReason d)])
            else
              (some { state with
                  escalation_requested := true
                  escalation_reason := some ("Card block failed: " ++ pyStr r.error)
                  messages := state.messages ++
                    [aiMsg ("I encountered an issue: " ++ pyStr r.error ++
                      ". Let me transfer you to a specialist.")] },
                [BankOp.blockCard cid (blockReason d)])
        else
          (some { state with
              needs_user_input := true
              resume_node := some "card_atm_agent"
              messages := state.messages ++
                [aiMsg "Could you provide your card number or the last 4 digits?"] },
            [])
      else
        (some { state with
            flow_stage := some "awaiting_confirmation"
            needs_user_input := true
            resume_node := some "card_atm_agent"
            messages := state.messages ++ [aiMsg d.response] },
          [])
    | .check_status =>
      if strTruthy d.card_id then
        let cid := (d.card_id).getD ""
        match detailsOp cid with
        | .error e => (some (cardAgentCatch state e), [BankOp.getCardDetails cid])
        | .ok info =>
          let response :=
            if info.success then cardStatusMsg info
            else
              "I couldn" ++ apos ++ "t find that card in our system. " ++
              "Could you verify the card number?"
          (some { state with messages := state.messages ++ [aiMsg response] },
            [BankOp.getCardDetails cid])
      else
        (none, [])
    | .escalate =>
      (some { state with
          escalation_requested := true
          escalation_reason := some "Card issue requires specialist"
          messages := state.messages ++ [aiMsg d.response] },
        [])
    | .complete =>
      (some { state with
          flow_stage := some "complete"
          messages := state.messages ++ [aiMsg d.response] },
        [])
    | .gather_info =>
      (some { state with
          needs_user_input := true
          resume_node := some "card_atm_agent"
          messages := state.messages ++ [aiMsg d.response] },
        [])

/-! ## Account servicing agent (src/backend/src/agents/nodes/account_agent.py) -/

/-- Action labels of the account-servicing oracle schema. -/
inductive AccountActionKind
  | get_balance
  | request_statement
  | update_profile
  | gather_info
  | complete
  | escalate
deriving DecidableEq, Repr

/-- Structured output of the account-servicing oracle call
(`AccountServiceAction`); profile updates are embedded as key/value pairs. -/
structure AccountServiceAction where
  action : AccountActionKind
  statement_period : Option String
  profile_updates : Option (List (String × String))
  response : String
deriving DecidableEq, Repr

/-- One account line of the `get_account_balance` result. -/
structure AccountBalanceEntry where
  account_type : String
  balance : ℚ
deriving DecidableEq, Repr

/-- Result dict of `get_account_balance` as the handler reads it. -/
structure BalanceResult where
  success : Bool
  total_balance : ℚ
  accounts : List AccountBalanceEntry
  error : Option String
deriving DecidableEq, Repr

/-- Result dict of `request_statement` as the handler reads it. -/
structure StatementResult where
  success : Bool
  reference_id : String
  message : String
deriving DecidableEq, Repr

/-- Result dict of `update_profile` as the handler reads it. -/
structure ProfileUpdateResult where
  success : Bool
  updated_fields : List String
  error : Option String
deriving DecidableEq, Repr

/-- Dollar rendering of an amount.  The embedding prints the rational
plainly; the thousands separators and two-decimal padding of the Python
format spec are presentational and unused by any theorem. -/
def formatUSD (q : ℚ) : String := "$" ++ toString q

/-- The per-account lines of the balance reply. -/
def accountsText (l : List AccountBalanceEntry) : String :=
  String.intercalate "\n"
    (l.map (fun acc => "- " ++ acc.account_type.capitalize ++ ": " ++
      formatUSD acc.balance))

/-- The balance reply. -/
def balanceResponseMsg (r : BalanceResult) : String :=
  "Here are your account balances:\n" ++ accountsText r.accounts ++ "\n" ++
  "Total: " ++ formatUSD r.total_balance ++ "\n" ++
  "Is there anything else I can help you with?"

/-- Generic apology appended by the account-handler catch clause. -/
def accountAgentApologyMsg : String :=
  "I" ++ apos ++ "m having trouble. Let me connect you with a specialist."

/-- The escalated state built by the account-handler catch clause. -/
def accountAgentCatch (state : AgentState) (e : String) : AgentState :=
  { state with
    escalation_requested := true
    escalation_reason := some ("Agent error: " ++ e)
    messages := state.messages ++ [aiMsg accountAgentApologyMsg] }

/-- The statement period passed to the statement operation
(`decision.statement_period or "monthly"`). -/
def statementPeriod (d : AccountServiceAction) : String :=
  match d.statement_period with
  | some p => if p.isEmpty then "monthly" else p
  | none => "monthly"

/-- `account_servicing_agent_node`: the deep-logic account handler.  The
oracle decision and the three banking operations are injected.  The Python
body falls off the end (returning `None`) when `request_statement` fails or
when `update_profile` arrives without truthy profile updates. -/
def account_servicing_agent_node (state : AgentState)
    (oracle : Except String AccountServiceAction)
    (balanceOp : Option String → Except String BalanceResult)
    (statementOp : Option String → String → Except String StatementResult)
    (profileOp : Option String → List (String × String) →
      Except String ProfileUpdateResult) :
    Option AgentState :=
  match oracle with
  | .error e => some (accountAgentCatch state e)
  | .ok d =>
    match d.action with
    | .get_balance =>
      match balanceOp state.customer_id with
      | .error e => some (accountAgentCatch state e)
      | .ok r =>
        if r.success then
          some { state with
            account_balance := some r.total_balance
            flow_stage := some "complete"
            messages := state.messages ++ [aiMsg (balanceResponseMsg r)] }
        else
          some { state with
            messages := state.messages ++
              [aiMsg ("I couldn" ++ apos ++ "t retrieve your balance: " ++
                pyStr r.error)] }
    | .request_statement =>
      match statementOp state.customer_id (statementPeriod d) with
      | .error e => some (accountAgentCatch state e)
      | .ok r =>
        if r.success then
          some { state with
            flow_stage := some "complete"
            messages := state.messages ++
              [aiMsg ("Your " ++ statementPeriod d ++
                " statement has been requested. " ++
                "Reference number: " ++ r.reference_id ++ ". " ++ r.message)] }
        else none
    | .update_profile =>
      match d.profile_updates with
      | some updates =>
        if updates.isEmpty then none
        else
          match profileOp state.customer_id updates with
          | .error e => some (accountAgentCatch state e)
          | .ok r =>
            if r.success then
              some { state with
                flow_stage := some "complete"
                messages := state.messages ++
                  [aiMsg ("Your " ++ String.intercalate ", " r.updated_fields ++
                    " has been updated successfully.")] }
            else
              some { state with
                messages := state.messages ++
                  [aiMsg ("Update failed: " ++ pyStr r.error)] }
      | none => none
    | .escalate =>
      some { state with
        escalation_requested := true
        escalation_reason := some "Account servicing requires specialist"
        messages := state.messages ++ [aiMsg d.response] }
    | .complete =>
      some { state with
        flow_stage := some "complete"
        messages := state.messages ++ [aiMsg d.response] }
    | .gather_info =>
      some { state with
        needs_user_input := true
        resume_node := some "account_servicing_agent"
        messages := state.messages ++ [aiMsg d.response] }

/-! ## Theorems: handler error conversion (C6) and the card fall-through
(C10) -/

/-- Outcome shape demanded of a handler that caught an exception `e`: a
state is returned (nothing propagates), escalation is requested with reason
"Agent error: " followed by the exception message, and exactly one apology
message is appended. -/
def agentErrorOutcome (s : AgentState) (e : String) (apology : String)
    (res : Option AgentState) : Prop :=
  ∃ s1, res = some s1 ∧
    s1.escalation_requested = true ∧
    s1.escalation_reason = some ("Agent error: " ++ e) ∧
    s1.messages = s.messages ++ [aiMsg apology]

/-- C6: every uncaught exception inside the card or account-servicing
handler — from the oracle call or from any dispatched banking operation —
yields a returned state with escalation requested, reason
"Agent error: " followed by the exception message, and exactly one appended
generic apology; the total return type shows no path propagates. -/
theorem handler_errors_convert_to_escalation (s : AgentState) (e : String)
    (blockOp : String → String → Except String BlockCardResult)
    (detailsOp : String → Except String CardDetailsResult)
    (balanceOp : Option String → Except String BalanceResult)
    (statementOp : Option String → String → Except String StatementResult)
    (profileOp : Option String → List (String × String) →
      Except String ProfileUpdateResult) :
    agentErrorOutcome s e cardAgentApologyMsg
      (card_atm_agent_node s (Except.error e) blockOp detailsOp).1 ∧
    (∀ d cid, d.action = CardActionKind.block_card →
      d.confirmation_needed = false →
      d.card_id = some cid → cid.isEmpty = false →
      blockOp cid (blockReason d) = Except.error e →
      agentErrorOutcome s e cardAgentApologyMsg
        (card_atm_agent_node s (Except.ok d) blockOp detailsOp).1) ∧
    (∀ d cid, d.action = CardActionKind.check_status →
      d.card_id = some cid → cid.isEmpty = false →
      detailsOp cid = Except.error e →
      agentErrorOutcome s e cardAgentApologyMsg
        (card_atm_agent_node s (Except.ok d) blockOp detailsOp).1) ∧
    agentErrorOutcome s e accountAgentApologyMsg
      (account_servicing_agent_node s (Except.error e) balanceOp statementOp
        profileOp) ∧
    (∀ d, d.action = AccountActionKind.get_balance →
      balanceOp s.customer_id = Except.error e →
      agentErrorOutcome s e accountAgentApologyMsg
        (account_servicing_agent_node s (Except.ok d) balanceOp statementOp
          profileOp)) ∧
    (∀ d, d.action = AccountActionKind.request_statement →
      statementOp s.customer_id (statementPeriod d) = Except.error e →
      agentErrorOutcome s e accountAgentApologyMsg
        (account_servicing_agent_node s (Except.ok d) balanceOp statementOp
          profileOp)) ∧
    (∀ d updates, d.action = AccountActionKind.update_profile →
      d.profile_updates = some updates → updates ≠ [] →
      profileOp s.customer_id updates = Except.error e →
      agentErrorOutcome s e accountAgentApologyMsg
        (account_servicing_agent_node s (Except.ok d) balanceOp statementOp
          profileOp)) := by
  refine ⟨?_, ?_, ?_, ?_, ?_, ?_, ?_⟩
  · exact ⟨_, rfl, rfl, rfl, rfl⟩
  · intro d cid ha hc hid hne hop
    refine ⟨cardAgentCatch s e, ?_, rfl, rfl, rfl⟩
    simp [card_atm_agent_node, ha, hc, hid, strTruthy, hne, hop]
  · intro d cid ha hid hne hop
    refine ⟨cardAgentCatch s e, ?_, rfl, rfl, rfl⟩
    simp [card_atm_agent_node, ha, hid, strTruthy, hne, hop]
  · exact ⟨_, rfl, rfl, rfl, rfl⟩
  · intro d ha hop
    refine ⟨accountAgentCatch s e, ?_, rfl, rfl, rfl⟩
    simp [account_servicing_agent_node, ha, hop]
  · intro d ha hop
    refine ⟨accountAgentCatch s e, ?_, rfl, rfl, rfl⟩
    simp [account_servicing_agent_node, ha, hop]
  · intro d updates ha hupd hne hop
    refine ⟨accountAgentCatch s e, ?_, rfl, rfl, rfl⟩
    simp [account_servicing_agent_node, ha, hupd, hne, hop]

/-- Witness for `handler_errors_convert_to_escalation`: every error source
instantiated with a raising call at a concrete state. -/
theorem handler_errors_convert_to_escalation_witness :
    agentErrorOutcome initState "boom" cardAgentApologyMsg
      (card_atm_agent_node initState (Except.error "boom")
        (fun _ _ => Except.error "boom") (fun _ => Except.error "boom")).1 ∧
    agentErrorOutcome initState "boom" cardAgentApologyMsg
      (card_atm_agent_node initState
        (Except.ok ⟨CardActionKind.block_card, some "CARD00001", some "Lost",
          false, "Blocking your card now."⟩)
        (fun _ _ => Except.error "boom") (fun _ => Except.error "boom")).1 ∧
    agentErrorOutcome initState "boom" cardAgentApologyMsg
      (card_atm_agent_node initState
        (Except.ok ⟨CardActionKind.check_status, some "CARD00001", none,
          false, "Checking."⟩)
        (fun _ _ => Except.error "boom") (fun _ => Except.error "boom")).1 ∧
    agentErrorOutcome initState "boom" accountAgentApologyMsg
      (account_servicing_agent_node initState (Except.error "boom")
        (fun _ => Except.error "boom") (fun _ _ => Except.error "boom")
        (fun _ _ => Except.error "boom")) ∧
    agentErrorOutcome initState "boom" accountAgentApologyMsg
      (account_servicing_agent_node initState
        (Except.ok ⟨AccountActionKind.get_balance, none, none, "Balance."⟩)
        (fun _ => Except.error "boom") (fun _ _ => Except.error "boom")
        (fun _ _ => Except.error "boom")) ∧
    agentErrorOutcome initState "boom" accountAgentApologyMsg
      (account_servicing_agent_node initState
        (Except.ok ⟨AccountActionKind.request_statement, some "monthly", none,
          "Statement."⟩)
        (fun _ => Except.error "boom") (fun _ _ => Except.error "boom")
        (fun _ _ => Except.error "boom")) ∧
    agentErrorOutcome initState "boom" accountAgentApologyMsg
      (account_servicing_agent_node initState
        (Except.ok ⟨AccountActionKind.update_profile, none,
          some [("email", "a@b.com")], "Updating."⟩)
        (fun _ => Except.error "boom") (fun _ _ => Except.error "boom")
        (fun _ _ => Except.error "boom")) := by
  have h := handler_errors_convert_to_escalation initState "boom"
    (fun _ _ => Except.error "boom") (fun _ => Except.error "boom")
    (fun _ => Except.error "boom") (fun _ _ => Except.error "boom")
    (fun _ _ => Except.error "boom")
  exact ⟨h.1,
    h.2.1 ⟨CardActionKind.block_card, some "CARD00001", some "Lost", false,
      "Blocking your card now."⟩ "CARD00001" rfl rfl rfl rfl rfl,
    h.2.2.1 ⟨CardActionKind.check_status, some "CARD00001", none, false,
      "Checking."⟩ "CARD00001" rfl rfl rfl rfl,
    h.2.2.2.1,
    h.2.2.2.2.1 ⟨AccountActionKind.get_balance, none, none, "Balance."⟩ rfl rfl,
    h.2.2.2.2.2.1 ⟨AccountActionKind.request_statement, some "monthly", none,
      "Statement."⟩ rfl rfl,
    h.2.2.2.2.2.2 ⟨AccountActionKind.update_profile, none,
      some [("email", "a@b.com")], "Updating."⟩ [("email", "a@b.com")]
      rfl rfl (by simp) rfl⟩

/-- Helper: the successful-block reply decomposes around the reference id. -/
theorem blockSuccessMsg_decomp (r : BlockCardResult) :
    blockSuccessMsg r =
      ("Your card ending in " ++ (r.last_4).getD "XXXX" ++
        " has been blocked successfully. " ++ "Reference number: ") ++
      r.reference_id ++
      (". " ++ "A replacement card will be mailed to your address on file within " ++
        "5-7 business days. " ++ "Is there anything else I can help you with?") := by
  simp [blockSuccessMsg, String.append_assoc]

/-- C5: two-phase card blocking.  A turn whose oracle decision is
`block_card` with `confirmation_needed = true` invokes no banking
operation; it suspends with flow stage `awaiting_confirmation`, needs user
input, and resumes at the card handler.  The block operation appears among
a turn's invoked operations only when the decision is `block_card` with
`confirmation_needed = false` and a present (truthy) card id; and such a
turn with a successful block result performs exactly that block operation
and appends a reply carrying the reference id. -/
theorem card_block_two_phase (s : AgentState)
    (oracle : Except String CardAction)
    (blockOp : String → String → Except String BlockCardResult)
    (detailsOp : String → Except String CardDetailsResult) :
    (∀ d, oracle = Except.ok d → d.action = CardActionKind.block_card →
      d.confirmation_needed = true →
      (card_atm_agent_node s oracle blockOp detailsOp).2 = [] ∧
      ∃ s1, (card_atm_agent_node s oracle blockOp detailsOp).1 = some s1 ∧
        s1.flow_stage = some "awaiting_confirmation" ∧
        s1.needs_user_input = true ∧
        s1.resume_node = some "card_atm_agent") ∧
    (∀ cid reason,
      BankOp.blockCard cid reason ∈
          (card_atm_agent_node s oracle blockOp detailsOp).2 →
      ∃ d, oracle = Except.ok d ∧ d.action = CardActionKind.block_card ∧
        d.confirmation_needed = false ∧ d.card_id = some cid ∧
        cid.isEmpty = false) ∧
    (∀ d cid r, oracle = Except.ok d → d.action = CardActionKind.block_card →
      d.confirmation_needed = false → d.card_id = some cid →
      cid.isEmpty = false →
      blockOp cid (blockReason d) = Except.ok r → r.success = true →
      (card_atm_agent_node s oracle blockOp detailsOp).2 =
        [BankOp.blockCard cid (blockReason d)] ∧
      ∃ pre post, (card_atm_agent_node s oracle blockOp detailsOp).1 =
        some { s with
          flow_stage := some "card_blocked"
          messages := s.messages ++ [aiMsg (pre ++ r.reference_id ++ post)] }) := by
  refine ⟨?_, ?_, ?_⟩
  · intro d hx ha hc
    subst hx
    have hnode : card_atm_agent_node s (Except.ok d) blockOp detailsOp =
        (some { s with
            flow_stage := some "awaiting_confirmation"
            needs_user_input := true
            resume_node := some "card_atm_agent"
            messages := s.messages ++ [aiMsg d.response] }, []) := by
      simp [card_atm_agent_node, ha, hc]
    rw [hnode]
    exact ⟨rfl, _, rfl, rfl, rfl, rfl⟩
  · intro cid reason hmem
    cases hx : oracle with
    | error e =>
        rw [hx] at hmem
        simp [card_atm_agent_node] at hmem
    | ok d =>
        rw [hx] at hmem
        cases hact : d.action with
        | block_card =>
          cases hconf : d.confirmation_needed with
          | true =>
            have hev : (card_atm_agent_node s (Except.ok d) blockOp detailsOp).2
                = [] := by
              simp [card_atm_agent_node, hact, hconf]
            rw [hev] at hmem
            simp at hmem
          | false =>
            cases hcid : d.card_id with
            | none =>
              have hev : (card_atm_agent_node s (Except.ok d) blockOp
                  detailsOp).2 = [] := by
                simp [card_atm_agent_node, hact, hconf, hcid, strTruthy]
              rw [hev] at hmem
              simp at hmem
            | some t =>
              cases hemp : t.isEmpty with
              | true =>
                have hev : (card_atm_agent_node s (Except.ok d) blockOp
                    detailsOp).2 = [] := by
                  simp [card_atm_agent_node, hact, hconf, hcid, strTruthy, hemp]
                rw [hev] at hmem
                simp at hmem
              | false =>
                have hev : (card_atm_agent_node s (Except.ok d) blockOp
                    detailsOp).2 = [BankOp.blockCard t (blockReason d)] := by
                  cases hop : blockOp t (blockReason d) with
                  | error e =>
                      simp [card_atm_agent_node, hact, hconf, hcid, strTruthy,
                        hemp, hop]
                  | ok r =>
                      cases hs : r.success <;>
                        simp [card_atm_agent_node, hact, hconf, hcid, strTruthy,
                          hemp, hop, hs]
                rw [hev] at hmem
                simp at hmem
                obtain ⟨hc1, _⟩ := hmem
                subst hc1
                exact ⟨d, rfl, hact, hconf, hcid, hemp⟩
        | check_status =>
          cases hcid : d.card_id with
          | none =>
            have hev : (card_atm_agent_node s (Except.ok d) blockOp
                detailsOp).2 = [] := by
              simp [card_atm_agent_node, hact, hcid, strTruthy]
            rw [hev] at hmem
            simp at hmem
          | some t =>
            cases hemp : t.isEmpty with
            | true =>
              have hev : (card_atm_agent_node s (Except.ok d) blockOp
                  detailsOp).2 = [] := by
                simp [card_atm_agent_node, hact, hcid, strTruthy, hemp]
              rw [hev] at hmem
              simp at hmem
            | false =>
              have hev : (card_atm_agent_node s (Except.ok d) blockOp
                  detailsOp).2 = [BankOp.getCardDetails t] := by
                cases hop : detailsOp t with
                | error e =>
                    simp [card_atm_agent_node, hact, hcid, strTruthy, hemp, hop]
                | ok info =>
                    simp [card_atm_agent_node, hact, hcid, strTruthy, hemp, hop]
              rw [hev] at hmem
              simp at hmem
        | gather_info =>
          have hev : (card_atm_agent_node s (Except.ok d) blockOp detailsOp).2
              = [] := by
            simp [card_atm_agent_node, hact]
          rw [hev] at hmem
          simp at hmem
        | complete =>
          have hev : (card_atm_agent_node s (Except.ok d) blockOp detailsOp).2
              = [] := by
            simp [card_atm_agent_node, hact]
          rw [hev] at hmem
          simp at hmem
        | escalate =>
          have hev : (card_atm_agent_node s (Except.ok d) blockOp detailsOp).2
              = [] := by
            simp [card_atm_agent_node, hact]
          rw [hev] at hmem
          simp at hmem
  · intro d cid r hx ha hc hcid hemp hop hs
    subst hx
    have hnode : card_atm_agent_node s (Except.ok d) blockOp detailsOp =
        (some { s with
            flow_stage := some "card_blocked"
            messages := s.messages ++ [aiMsg (blockSuccessMsg r)] },
          [BankOp.blockCard cid (blockReason d)]) := by
      simp [card_atm_agent_node, ha, hc, hcid, strTruthy, hemp, hop, hs]
    rw [hnode]
    refine ⟨rfl,
      "Your card ending in " ++ (r.last_4).getD "XXXX" ++
        " has been blocked successfully. " ++ "Reference number: ",
      ". " ++ "A replacement card will be mailed to your address on file within " ++
        "5-7 business days. " ++ "Is there anything else I can help you with?",
      ?_⟩
    rw [← blockSuccessMsg_decomp]

/-- Witness for `card_block_two_phase`: a confirmation-needed turn suspends
without invoking the block; a confirmed turn invokes exactly one block and
replies with the reference id. -/
theorem card_block_two_phase_witness :
    ((card_atm_agent_node initState
        (Except.ok ⟨CardActionKind.block_card, some "CARD00001", some "Lost",
          true, "Would you like me to block this card?"⟩)
        (fun _ _ => Except.error "unused")
        (fun _ => Except.error "unused")).2 = [] ∧
      ∃ s1, (card_atm_agent_node initState
        (Except.ok ⟨CardActionKind.block_card, some "CARD00001", some "Lost",
          true, "Would you like me to block this card?"⟩)
        (fun _ _ => Except.error "unused")
        (fun _ => Except.error "unused")).1 = some s1 ∧
        s1.flow_stage = some "awaiting_confirmation" ∧
        s1.needs_user_input = true ∧
        s1.resume_node = some "card_atm_agent") ∧
    ((card_atm_agent_node initState
        (Except.ok ⟨CardActionKind.block_card, some "CARD00001", some "Lost",
          false, "Blocking now."⟩)
        (fun _ _ => Except.ok ⟨true, some "0001", "BLK-CARD00001-20260101", none⟩)
        (fun _ => Except.error "unused")).2 =
        [BankOp.blockCard "CARD00001" "Lost"] ∧
      ∃ pre post, (card_atm_agent_node initState
        (Except.ok ⟨CardActionKind.block_card, some "CARD00001", some "Lost",
          false, "Blocking now."⟩)
        (fun _ _ => Except.ok ⟨true, some "0001", "BLK-CARD00001-20260101", none⟩)
        (fun _ => Except.error "unused")).1 =
        some { initState with
          flow_stage := some "card_blocked"
          messages := initState.messages ++
            [aiMsg (pre ++ "BLK-CARD00001-20260101" ++ post)] }) := by
  constructor
  · exact (card_block_two_phase initState _ _ _).1
      ⟨CardActionKind.block_card, some "CARD00001", some "Lost", true,
        "Would you like me to block this card?"⟩ rfl rfl rfl
  · exact (card_block_two_phase initState _ _ _).2.2
      ⟨CardActionKind.block_card, some "CARD00001", some "Lost", false,
        "Blocking now."⟩ "CARD00001"
      ⟨true, some "0001", "BLK-CARD00001-20260101", none⟩
      rfl rfl rfl rfl rfl rfl rfl

/-- C10: the card handler, given the oracle decision `check_status` with no
card id, falls through every branch of its body and yields no state (the
Python function implicitly returns `None`), contradicting its own docstring
promise of an updated state with an agent response. -/
theorem card_check_status_without_id_returns_no_state :
    (card_atm_agent_node initState
        (Except.ok ⟨CardActionKind.check_status, none, none, false,
          "Let me check your card status."⟩)
        (fun _ _ => Except.error "unused")
        (fun _ => Except.error "unused")).1 = none := rfl

/-! ## Session registry (`VoiceConnectionManager`,
src/backend/src/api/voice_websocket.py) -/

/-- The registry dict `active_connections`, mapping session ids to live
transport handles (handles abstracted as numbers). -/
structure VoiceConnectionManager where
  active_connections : List (String × Nat)
deriving DecidableEq, Repr

/-- Dict lookup: Python `session_id in self.active_connections` followed by
`self.active_connections[session_id]`. -/
def VoiceConnectionManager.lookup (m : VoiceConnectionManager)
    (session_id : String) : Option Nat :=
  ((m.active_connections).find? (fun p => p.1 == session_id)).map (fun p => p.2)

/-- `send_json`: pushes the message on the registered handle when present.
The result is the frame actually pushed; `none` means nothing was sent.
The membership guard makes the unregistered case a silent no-op. -/
def VoiceConnectionManager.send_json (m : VoiceConnectionManager)
    (session_id : String) (message : String) : Option (Nat × String) :=
  match m.lookup session_id with
  | some ws => some (ws, message)
  | none => none

/-- `send_bytes`: pushes binary data on the registered handle when present,
with the same membership guard as `send_json`. -/
def VoiceConnectionManager.send_bytes (m : VoiceConnectionManager)
    (session_id : String) (data : List Nat) : Option (Nat × List Nat) :=
  match m.lookup session_id with
  | some ws => some (ws, data)
  | none => none

/-! ## Theorems: registry push to an unregistered session (C8) -/

/-- C8: pushing a frame (`send_json` or `send_bytes`) to a session id with
no registered transport handle sends nothing; both operations are total, so
no error is raised either. -/
theorem unregistered_push_is_noop (m : VoiceConnectionManager)
    (session_id : String) (message : String) (data : List Nat)
    (h : m.lookup session_id = none) :
    m.send_json session_id message = none ∧
      m.send_bytes session_id data = none := by
  constructor <;>
    simp [VoiceConnectionManager.send_json, VoiceConnectionManager.send_bytes, h]

/-- Witness for `unregistered_push_is_noop`: a registry holding only another
session drops both frame kinds for an unknown session id. -/
theorem unregistered_push_is_noop_witness :
    VoiceConnectionManager.send_json ⟨[("other-session", 7)]⟩ "session-1"
        "hello" = none ∧
      VoiceConnectionManager.send_bytes ⟨[("other-session", 7)]⟩ "session-1"
        [0, 1, 2] = none :=
  unregistered_push_is_noop ⟨[("other-session", 7)]⟩ "session-1" "hello"
    [0, 1, 2] (by decide)

end VoiceAgent
